import Mathlib

/-!
Shallow embedding of the core of the viseron repository:
the publish/subscribe broker (`viseron/components/data_stream/__init__.py`)
and the process watchdog (`viseron/watchdog/process_watchdog.py`).

Python values carried on the bus are modelled by a small inductive `PyObj`
with Python truthiness; topics are `String`s; the registries are ordered
association lists, mirroring insertion-ordered Python dicts.
-/

namespace Viseron

/-- A Python value used as a published payload.  The constructors cover the
falsy/truthy distinction the dispatch code makes with `if data:`. -/
inductive PyObj where
  | none
  | bool (b : Bool)
  | int (n : Int)
  | str (s : String)
  deriving DecidableEq, Repr

/-- Python truthiness of a payload (`bool(x)`): `None`, `False`, `0` and `""`
are falsy, everything else truthy. -/
def PyObj.truthy : PyObj → Bool
  | .none => false
  | .bool b => b
  | .int n => n != 0
  | .str s => s != ""

/-- Glob matching over character lists, the semantics of Python's
`fnmatch.fnmatch` restricted to patterns made of literal characters, `?`
(one arbitrary character) and `*` (any, possibly empty, character sequence —
including `/`; fnmatch's translation of `*` is the regex `.*`).
Structural recursion on the pattern: the `*` case tries every suffix of the
remaining name. -/
def globMatch : List Char → List Char → Bool
  | [], s => s.isEmpty
  | c :: ps, s =>
    if c = '*' then s.tails.any (fun t => globMatch ps t)
    else if c = '?' then
      match s with
      | [] => false
      | _ :: as => globMatch ps as
    else
      match s with
      | [] => false
      | a :: as => c = a && globMatch ps as

/-- `fnmatch.fnmatch(name, pattern)` (POSIX case-sensitive normcase). -/
def fnmatch (name pattern : String) : Bool :=
  globMatch pattern.toList name.toList

/-- The membership test `"*" in data_topic`: the pattern string contains
the character `*` somewhere. -/
def containsStar (s : String) : Bool :=
  s.toList.any (fun c => c = '*')

/-- `str.split("/")` on the character list: used only to talk about segment
counts of topics and patterns. -/
def splitSegs : List Char → List (List Char)
  | [] => [[]]
  | c :: cs =>
    let r := splitSegs cs
    if c = '/' then [] :: r
    else
      match r with
      | [] => [[c]]
      | seg :: rest => (c :: seg) :: rest

/-- Number of `/`-delimited segments of a topic or pattern string. -/
def segCount (s : String) : Nat :=
  (splitSegs s.toList).length

/-- The delivery target of a subscription, a closed tagged union of the
runtime-inspected kinds in `run_callbacks`: a plain callable, a
`queue.Queue`, a `tornado.queues.Queue`, or anything else (invalid).
Targets are identified by an opaque numeric id. -/
inductive CallbackTarget where
  | callable (f : Nat)
  | queue (q : Nat)
  | tornadoQueue (q : Nat)
  | other
  deriving DecidableEq, Repr

/-- `DataSubscriber` TypedDict: a callback target plus an optional ioloop
(scheduler) handle. -/
structure DataSubscriber where
  callback : CallbackTarget
  ioloop : Option Nat
  deriving DecidableEq, Repr

/-- An observable delivery effect emitted by `run_callbacks` for one
subscriber: spawning a thread on a callable (with the optional payload
argument), enqueueing a callback on an ioloop, putting on a queue via
`pop_if_full`, or logging the invalid-subscriber error. -/
inductive Effect where
  | spawnThread (f : Nat) (arg : Option PyObj)
  | ioloopCallback (loop : Nat) (f : Nat) (arg : Option PyObj)
  | queuePut (q : Nat) (item : PyObj)
  | ioloopQueuePut (loop : Nat) (q : Nat) (item : PyObj)
  | logError
  deriving DecidableEq, Repr

/-- The payload an effect carries to its subscriber, if any. -/
def Effect.payloadCarried : Effect → Option PyObj
  | .spawnThread _ a => a
  | .ioloopCallback _ _ a => a
  | .queuePut _ d => some d
  | .ioloopQueuePut _ _ d => some d
  | .logError => Option.none

/-- Whether a subscriber falls into one of the supported branches of
`run_callbacks` (callable, `Queue`, or tornado queue with an ioloop). -/
def isValidTarget (s : DataSubscriber) : Bool :=
  match s.callback, s.ioloop with
  | .callable _, _ => true
  | .queue _, _ => true
  | .tornadoQueue _, some _ => true
  | .tornadoQueue _, Option.none => false
  | .other, _ => false

/-- The effect `run_callbacks` produces for one subscriber, following the
branch cascade of the Python code in order: callable with no ioloop (spawn a
thread, passing `data` as argument only when `if data:` is truthy), callable
with an ioloop (`add_callback`, same truthiness test), `Queue`
(`pop_if_full` with the payload unconditionally), tornado queue with an
ioloop (`add_callback(pop_if_full, ...)`), and otherwise a logged error.
The kinds are disjoint, so matching on the target kind first is equivalent
to the source's `callable`/`isinstance` cascade. -/
def dispatchOne (s : DataSubscriber) (d : PyObj) : Effect :=
  match s.callback with
  | .callable f =>
    match s.ioloop with
    | Option.none => .spawnThread f (if d.truthy then some d else Option.none)
    | some lp => .ioloopCallback lp f (if d.truthy then some d else Option.none)
  | .queue q => .queuePut q d
  | .tornadoQueue q =>
    match s.ioloop with
    | some lp => .ioloopQueuePut lp q d
    | Option.none => .logError
  | .other => .logError

/-- `run_callbacks`: iterate over a copy of the subscriber dict's values in
insertion order, producing one effect per subscriber. -/
def run_callbacks (cbs : List (Nat × DataSubscriber)) (d : PyObj) : List Effect :=
  cbs.map (fun c => dispatchOne c.2 d)

/-- An insertion-ordered dict from topic pattern to an insertion-ordered
dict (subscription id → subscriber), as an association list. -/
abbrev SubMap := List (String × List (Nat × DataSubscriber))

/-- Dict lookup `m[t]` / `m.get(t)`: value at the first matching key. -/
def lookupTopic (m : SubMap) (t : String) : Option (List (Nat × DataSubscriber)) :=
  match m with
  | [] => Option.none
  | (k, subs) :: tl => if k = t then some subs else lookupTopic tl t

/-- Inner-dict insertion `d[uid] = s`: overwrite in place if the key exists,
else append at the end (Python dict insertion order). -/
def insertAssoc (l : List (Nat × DataSubscriber)) (uid : Nat) (s : DataSubscriber) :
    List (Nat × DataSubscriber) :=
  match l with
  | [] => [(uid, s)]
  | (k, v) :: tl => if k = uid then (k, s) :: tl else (k, v) :: insertAssoc tl uid s

/-- `m.setdefault(t, {})[uid] = s`: create the topic entry at the end if
absent, then insert into its inner dict. -/
def setdefaultUpdate (m : SubMap) (t : String) (uid : Nat) (s : DataSubscriber) : SubMap :=
  match m with
  | [] => [(t, [(uid, s)])]
  | (k, subs) :: tl =>
    if k = t then (k, insertAssoc subs uid s) :: tl
    else (k, subs) :: setdefaultUpdate tl t uid s

/-- Inner-dict `d.pop(uid)` with no default: `some` of the dict without the
entry when the key is present, `none` (KeyError) otherwise. -/
def popAssoc (l : List (Nat × DataSubscriber)) (uid : Nat) :
    Option (List (Nat × DataSubscriber)) :=
  match l with
  | [] => Option.none
  | (k, v) :: tl =>
    if k = uid then some tl else (popAssoc tl uid).map (fun r => (k, v) :: r)

/-- Replace the value stored at the first occurrence of key `t`. -/
def replaceTopic (m : SubMap) (t : String) (v : List (Nat × DataSubscriber)) : SubMap :=
  match m with
  | [] => []
  | (k, subs) :: tl =>
    if k = t then (k, v) :: tl else (k, subs) :: replaceTopic tl t v

/-- The broker's registry state: `DataStream._subscribers`,
`DataStream._wildcard_subscribers`, and a counter generating the unique
subscription ids (modelling `uuid.uuid4()`'s per-process uniqueness). -/
structure Registries where
  subscribers : SubMap
  wildcard_subscribers : SubMap
  nextId : Nat
  deriving DecidableEq, Repr

/-- `DataStream.subscribe_data`: pick the wildcard map when `"*" in
data_topic`, the exact map otherwise; store the subscriber under a fresh
unique id and return that id. -/
def subscribe_data (st : Registries) (data_topic : String) (cb : CallbackTarget)
    (ioloop : Option Nat) : Nat × Registries :=
  let uid := st.nextId
  let sub : DataSubscriber := ⟨cb, ioloop⟩
  if containsStar data_topic then
    (uid, { st with
            wildcard_subscribers := setdefaultUpdate st.wildcard_subscribers data_topic uid sub,
            nextId := uid + 1 })
  else
    (uid, { st with
            subscribers := setdefaultUpdate st.subscribers data_topic uid sub,
            nextId := uid + 1 })

/-- `DataStream.unsubscribe_data`: `registry[data_topic].pop(unique_id)`.
Both the outer subscript and the no-default `pop` raise `KeyError` when the
key is absent; the error branch models that exception. -/
def unsubscribe_data (st : Registries) (data_topic : String) (uid : Nat) :
    Except String Registries :=
  if containsStar data_topic then
    match lookupTopic st.wildcard_subscribers data_topic with
    | Option.none => .error "KeyError"
    | some subs =>
      match popAssoc subs uid with
      | Option.none => .error "KeyError"
      | some subs' =>
        .ok { st with
              wildcard_subscribers := replaceTopic st.wildcard_subscribers data_topic subs' }
  else
    match lookupTopic st.subscribers data_topic with
    | Option.none => .error "KeyError"
    | some subs =>
      match popAssoc subs uid with
      | Option.none => .error "KeyError"
      | some subs' =>
        .ok { st with subscribers := replaceTopic st.subscribers data_topic subs' }

/-- A queued bus message: `{"data_topic": ..., "data": ...}`. -/
structure Msg where
  data_topic : String
  data : PyObj
  deriving DecidableEq, Repr

/-- Modelled from the spec: `helpers.pop_if_full` is not under `src/` (only
its callers are).  The spec says enqueueing "never blocks"; "overflow policy
is drop-oldest-insert-newest": if the bounded queue is full, the oldest
entry is popped before the new item is put. -/
def pop_if_full {α : Type} (maxsize : Nat) (q : List α) (item : α) : List α :=
  if q.length < maxsize then q ++ [item] else q.drop 1 ++ [item]

/-- `DataStream.publish_data`: non-blocking enqueue of the message into the
bounded mailbox `_data_queue` (`Queue(maxsize=1000)`) via `pop_if_full`. -/
def publish_data (q : List Msg) (data_topic : String) (data : PyObj) : List Msg :=
  pop_if_full 1000 q ⟨data_topic, data⟩

/-- A sequence of publishes into an initially empty mailbox of capacity
`maxsize`, with no intervening dequeue. -/
def publishAll {α : Type} (maxsize : Nat) (msgs : List α) : List α :=
  msgs.foldl (pop_if_full maxsize) []

/-- `DataStream.static_subscriptions`: run the callbacks registered under
the exact topic (`_subscribers.get(topic, {})`). -/
def static_subscriptions (st : Registries) (m : Msg) : List Effect :=
  run_callbacks ((lookupTopic st.subscribers m.data_topic).getD []) m.data

/-- `DataStream.wildcard_subscriptions`: for every wildcard pattern (in
insertion order, over a copy), run its callbacks when
`fnmatch(topic, pattern)` matches. -/
def wildcard_subscriptions (st : Registries) (m : Msg) : List Effect :=
  st.wildcard_subscribers.flatMap
    (fun pc => if fnmatch m.data_topic pc.1 then run_callbacks pc.2 m.data else [])

/-- One iteration of `DataStream.consume_data`: dequeue a message, deliver
to exact subscribers first, then to wildcard subscribers. -/
def stepEffects (st : Registries) (m : Msg) : List Effect :=
  static_subscriptions st m ++ wildcard_subscriptions st m

/-- The dispatch loop run over a drained sequence of messages. -/
def consumeSteps (st : Registries) (msgs : List Msg) : List Effect :=
  msgs.flatMap (stepEffects st)

/-! ### The direct-delivery spawn-retry loop (`run_callbacks`, callable
branch).

Each iteration of the `while True:` loop observes `threading.active_count()`
and, if it attempts `thread.start()`, an outcome: success, the
`RuntimeError("can't start new thread")` of thread-ceiling exhaustion, or
some other `RuntimeError`. -/

/-- Outcome of one attempted `thread.start()`. -/
inductive StartAttempt where
  | ok
  | errCeiling
  | errOther
  deriving DecidableEq, Repr

/-- How the retry loop ended: the thread was started, or the loop broke out
without starting it (only possible on a non-ceiling `RuntimeError`, whose
`except` clause falls through to `break`). -/
inductive LoopExit where
  | started
  | abandoned
  deriving DecidableEq, Repr

/-- The spawn-retry loop over a finite trace of iterations, each an observed
active-thread count paired with what `thread.start()` would do if attempted.
If the active count exceeds the ceiling `_max_threads`, the iteration sleeps
and retries without attempting.  On ceiling exhaustion the ceiling is revised
to `int(active_threads * 0.95)` and the loop retries; on success or any other
error the loop exits.  Returns the exit (or `none` while still retrying) and
the final ceiling. -/
def spawnLoop (maxThreads : Nat) : List (Nat × StartAttempt) → Option LoopExit × Nat
  | [] => (Option.none, maxThreads)
  | (active, res) :: rest =>
    if maxThreads < active then spawnLoop maxThreads rest
    else
      match res with
      | .ok => (some .started, maxThreads)
      | .errCeiling => spawnLoop (active * 95 / 100) rest
      | .errOther => (some .abandoned, maxThreads)

/-! ### The process watchdog (`viseron/watchdog/process_watchdog.py`). -/

/-- `RestartableProcess` state: construction arguments and keyword
arguments (opaque), name, grace period, the current `mp.Process` handle (a
pid, `None` before the first start), the started flag, the recorded start
timestamp, and the register flag. -/
structure RProc where
  args : List String
  kwargs : List (String × String)
  name : Option String
  grace_period : Int
  process : Option Nat
  started : Bool
  start_time : Option Int
  register : Bool
  deriving DecidableEq, Repr

/-- The world the process machinery interacts with: the next fresh process
handle and the current wall-clock timestamp. -/
structure World where
  nextPid : Nat
  now : Int
  deriving DecidableEq, Repr

/-- Observable OS/watchdog actions performed by `start`/`restart`. -/
inductive PAction where
  | terminate (pid : Nat)
  | join (pid : Nat) (timeout : Option Int)
  | kill (pid : Nat)
  | spawnProcess (pid : Nat)
  | registerWatchdog
  deriving DecidableEq, Repr

/-- `RestartableProcess.start`: create a new `mp.Process` from the stored
args/kwargs (a fresh handle), record the start timestamp, set the started
flag, start the process, and register with the watchdog when configured. -/
def RProc.start (w : World) (p : RProc) : RProc × World × List PAction :=
  let pid := w.nextPid
  let p' := { p with process := some pid, start_time := some w.now, started := true }
  (p', { w with nextPid := w.nextPid + 1 },
   [PAction.spawnProcess pid] ++ (if p.register then [PAction.registerWatchdog] else []))

/-- `RestartableProcess.restart`: clear the started flag; if a process
handle exists, terminate it, join up to `timeout`, kill it; then `start()`
again. -/
def RProc.restart (w : World) (p : RProc) (timeout : Option Int) :
    RProc × World × List PAction :=
  let p1 := { p with started := false }
  match p1.process with
  | some pid =>
    let r := RProc.start w p1
    (r.1, r.2.1, [PAction.terminate pid, PAction.join pid timeout, PAction.kill pid] ++ r.2.2)
  | Option.none => RProc.start w p1

/-- `RestartableProcess.is_alive`: liveness of the underlying process
handle (`False` when there is none); `aliveMap` is the OS's view. -/
def RProc.is_alive (aliveMap : Nat → Bool) (p : RProc) : Bool :=
  match p.process with
  | some pid => aliveMap pid
  | Option.none => false

/-- The grace-period guard of `ProcessWatchDog.watchdog`:
`registered_process.start_time and now - start_time < grace_period`.
`start_time` is falsy when `None` or `0.0`. -/
def graceSkip (now : Int) (p : RProc) : Bool :=
  match p.start_time with
  | Option.none => false
  | some t => if t = 0 then false else decide (now - t < p.grace_period)

/-- One unit's check in `ProcessWatchDog.watchdog`: `true` iff `restart()`
is called on it this tick (skip when not started, when alive, or when
inside the grace period). -/
def watchdogRestarts (now : Int) (aliveMap : Nat → Bool) (p : RProc) : Bool :=
  if !p.started then false
  else if p.is_alive aliveMap then false
  else if graceSkip now p then false
  else true

/-! ## Theorems about the claims -/

/-- C1 counterexample: with a subscriber on the wildcard pattern
`camera/*/event` (one `*` segment), the topic `camera/a/b/event` has a
different segment count (4 vs 3), yet dispatch delivers the message to that
subscriber, because `fnmatch`'s `*` also matches `/`.  This refutes the
claim that a topic whose segment count differs from the pattern's is never
delivered. -/
theorem wildcard_segment_count_cx :
    segCount "camera/a/b/event" ≠ segCount "camera/*/event" ∧
    stepEffects ⟨[], [("camera/*/event", [(0, ⟨CallbackTarget.queue 0, Option.none⟩)])], 1⟩
        ⟨"camera/a/b/event", PyObj.str "frame"⟩
      = [Effect.queuePut 0 (PyObj.str "frame")] := by
  exact ⟨by decide, by decide⟩

/-- C1 (amended): a subscriber on a wildcard pattern receives a published
message exactly when `fnmatch(topic, pattern)` matches, where `*` matches
any character sequence including `/`; equal segment count is sufficient but
not necessary. -/
theorem wildcard_delivery_iff_fnmatch (p t : String) (q : Nat) (d : PyObj) :
    Effect.queuePut q d ∈
        stepEffects ⟨[], [(p, [(0, ⟨CallbackTarget.queue q, Option.none⟩)])], 1⟩ ⟨t, d⟩ ↔
      fnmatch t p = true := by
  cases h : fnmatch t p <;>
    simp [stepEffects, static_subscriptions, wildcard_subscriptions, run_callbacks,
      lookupTopic, dispatchOne, h]

/-- C2 counterexample: an exact-topic subscriber with a plain-callable
target, registered on topic `t`, receives exactly one delivery for the
published payload `0`, but the delivery carries no payload argument (the
code tests `if data:`), so the delivered payload is not identical to the
published payload `0`. -/
theorem exact_falsy_payload_cx :
    stepEffects ⟨[("t", [(0, ⟨CallbackTarget.callable 7, Option.none⟩)])], [], 1⟩
        ⟨"t", PyObj.int 0⟩
      = [Effect.spawnThread 7 Option.none] ∧
    Effect.payloadCarried (Effect.spawnThread 7 Option.none) ≠ some (PyObj.int 0) := by
  exact ⟨by decide, by decide⟩

/-- C2 (amended): an exact-topic subscriber registered before the publish
receives exactly one delivery; the delivered payload is identical to the
published payload whenever the payload is truthy, and unconditionally for
queue targets; a callable target receives no payload argument when the
payload is falsy. -/
theorem exact_delivery_once (t : String) (uid n : Nat) (s : DataSubscriber) (d : PyObj)
    (hv : isValidTarget s = true) :
    stepEffects ⟨[(t, [(uid, s)])], [], n⟩ ⟨t, d⟩ = [dispatchOne s d] ∧
    (d.truthy = true → (dispatchOne s d).payloadCarried = some d) ∧
    (∀ q, s.callback = CallbackTarget.queue q → (dispatchOne s d).payloadCarried = some d) ∧
    (∀ f, s.callback = CallbackTarget.callable f → d.truthy = false →
      (dispatchOne s d).payloadCarried = Option.none) := by
  obtain ⟨cb, io⟩ := s
  refine ⟨?_, ?_, ?_, ?_⟩
  · simp [stepEffects, static_subscriptions, wildcard_subscriptions, run_callbacks, lookupTopic]
  · intro h
    cases cb <;> cases io <;>
      simp_all [dispatchOne, Effect.payloadCarried, isValidTarget]
  · intro q hq
    cases io <;> simp_all [dispatchOne, Effect.payloadCarried]
  · intro f hf hd
    cases io <;> simp_all [dispatchOne, Effect.payloadCarried]

/-- C2 witness: a queue subscriber on topic `t` with published payload `0`
is delivered to exactly once. -/
theorem exact_delivery_once_witness :
    stepEffects ⟨[("t", [(0, ⟨CallbackTarget.queue 3, Option.none⟩)])], [], 1⟩ ⟨"t", PyObj.int 0⟩
      = [dispatchOne ⟨CallbackTarget.queue 3, Option.none⟩ (PyObj.int 0)] :=
  (exact_delivery_once "t" 0 1 ⟨CallbackTarget.queue 3, Option.none⟩ (PyObj.int 0)
    (by decide)).1

/-- C10: for callable targets (direct or scheduler-backed) the dispatcher
passes the payload as an argument exactly when it is truthy; queue and
tornado-queue targets receive the payload unconditionally; `None`, `0`,
`False` and `""` are falsy. -/
theorem payload_truthiness (f q tq lp : Nat) (io : Option Nat) (d : PyObj) :
    (dispatchOne ⟨CallbackTarget.callable f, io⟩ d).payloadCarried
      = (if d.truthy then some d else Option.none) ∧
    (dispatchOne ⟨CallbackTarget.queue q, io⟩ d).payloadCarried = some d ∧
    (dispatchOne ⟨CallbackTarget.tornadoQueue tq, some lp⟩ d).payloadCarried = some d ∧
    PyObj.none.truthy = false ∧ (PyObj.int 0).truthy = false ∧
    (PyObj.bool false).truthy = false ∧ (PyObj.str "").truthy = false ∧
    (PyObj.int 1).truthy = true ∧ (PyObj.str "x").truthy = true := by
  refine ⟨?_, ?_, ?_, by decide, by decide, by decide, by decide, by decide, by decide⟩
  · cases io <;> cases h : d.truthy <;> simp [dispatchOne, Effect.payloadCarried, h]
  · cases io <;> simp [dispatchOne, Effect.payloadCarried]
  · simp [dispatchOne, Effect.payloadCarried]

theorem publishAll_append {α : Type} (N : Nat) (msgs : List α) (m : α) :
    publishAll N (msgs ++ [m]) = pop_if_full N (publishAll N msgs) m := by
  simp [publishAll, List.foldl_append]

theorem publishAll_eq_drop {α : Type} (N : Nat) (hN : 0 < N) (msgs : List α) :
    publishAll N msgs = msgs.drop (msgs.length - N) := by
  induction msgs using List.reverseRecOn with
  | nil => simp [publishAll]
  | append_singleton msgs m ih =>
    rw [publishAll_append, ih]
    rcases Nat.lt_or_ge msgs.length N with h | h
    · have h0 : msgs.length - N = 0 := by omega
      have h1 : (msgs ++ [m]).length - N = 0 := by simp; omega
      simp only [pop_if_full, h0, h1, List.drop_zero]
      rw [if_pos h]
    · have h2 : (msgs ++ [m]).length - N = (msgs.length - N) + 1 := by simp; omega
      have hlen : (msgs.drop (msgs.length - N)).length = N := by
        rw [List.length_drop]; omega
      simp only [pop_if_full, hlen, List.drop_drop]
      rw [if_neg (Nat.lt_irrefl N), h2, List.drop_append_of_le_length (by omega)]

/-- C3 (spec-modelled `pop_if_full`): with mailbox capacity `N` and `N + k`
publishes into an initially empty mailbox with no intervening dequeue, the
mailbox holds exactly the `N` most-recently published messages, in enqueue
(FIFO) order: the oldest `k` were dropped. -/
theorem mailbox_retains_last (N k : Nat) (msgs : List Msg) (hN : 0 < N)
    (hlen : msgs.length = N + k) :
    publishAll N msgs = msgs.drop k ∧ (publishAll N msgs).length = N := by
  have h := publishAll_eq_drop N hN msgs
  have hk : msgs.length - N = k := by omega
  refine ⟨by rw [h, hk], ?_⟩
  rw [h, hk, List.length_drop]
  omega

/-- C3 witness: capacity 2, three publishes; the mailbox retains the last
two messages in order. -/
theorem mailbox_retains_last_witness :
    publishAll 2 [Msg.mk "a" PyObj.none, Msg.mk "b" PyObj.none, Msg.mk "c" PyObj.none]
        = [Msg.mk "b" PyObj.none, Msg.mk "c" PyObj.none] ∧
    (publishAll 2 [Msg.mk "a" PyObj.none, Msg.mk "b" PyObj.none, Msg.mk "c" PyObj.none]).length
        = 2 :=
  mailbox_retains_last 2 1
    [Msg.mk "a" PyObj.none, Msg.mk "b" PyObj.none, Msg.mk "c" PyObj.none]
    (by decide) (by decide)

/-- C4: on a watchdog tick at time `now`, a registered unit whose recorded
start timestamp is `t` (with a genuine, positive timestamp) is restarted
exactly when it has been started, is not alive, and its grace period has
elapsed (`grace_period ≤ now - t`); in particular a unit that is alive, or
not started, or inside its grace period, is not restarted. -/
theorem watchdog_tick_decision (now t : Int) (aliveMap : Nat → Bool) (p : RProc)
    (hst : p.start_time = some t) (ht : 0 < t) :
    watchdogRestarts now aliveMap p
      = (p.started && !(p.is_alive aliveMap) && decide (p.grace_period ≤ now - t)) := by
  have htne : t ≠ 0 := by omega
  cases hb : p.started <;> cases ha : p.is_alive aliveMap <;>
    simp [watchdogRestarts, graceSkip, hst, htne, hb, ha, not_lt]
  by_cases hg : p.grace_period ≤ now - t
  · simp [hg, Int.not_lt.mpr hg]
  · simp [hg, Int.not_le.mp hg]

/-- C4 witness (the spec scenario): grace period 20, unit started at
timestamp 1 and dead; the tick at `now = 16` (elapsed 15 < 20) does not
restart, the tick at `now = 31` (elapsed 30 ≥ 20) does. -/
theorem watchdog_tick_decision_witness :
    watchdogRestarts 31 (fun _ => false)
        ⟨[], [], Option.none, 20, some 5, true, some 1, true⟩
      = (true && !((RProc.mk [] [] Option.none 20 (some 5) true (some 1) true).is_alive
            (fun _ => false)) && decide ((20 : Int) ≤ 31 - 1)) ∧
    watchdogRestarts 16 (fun _ => false)
        ⟨[], [], Option.none, 20, some 5, true, some 1, true⟩ = false ∧
    watchdogRestarts 31 (fun _ => false)
        ⟨[], [], Option.none, 20, some 5, true, some 1, true⟩ = true :=
  ⟨watchdog_tick_decision 31 1 (fun _ => false)
      ⟨[], [], Option.none, 20, some 5, true, some 1, true⟩ rfl (by decide),
   by decide, by decide⟩

/-- C6: for direct (callable, no ioloop) delivery, as long as every failed
`thread.start()` is the ceiling-exhaustion `RuntimeError`, the retry loop
never breaks out without starting the thread — after any finite trace of
iterations the delivery has either been started or is still being retried —
and on a ceiling failure at `active` running threads the ceiling is revised
down to `int(active * 0.95)` and the loop retried. -/
theorem direct_delivery_never_dropped (maxT active : Nat)
    (iters rest : List (Nat × StartAttempt))
    (h : ∀ i ∈ iters, i.2 ≠ StartAttempt.errOther) (hact : active ≤ maxT) :
    (spawnLoop maxT iters).1 ≠ some LoopExit.abandoned ∧
    spawnLoop maxT ((active, StartAttempt.errCeiling) :: rest)
      = spawnLoop (active * 95 / 100) rest := by
  constructor
  · clear hact rest
    revert h
    induction iters generalizing maxT with
    | nil =>
      intro h
      simp [spawnLoop]
    | cons i tl ih =>
      intro h
      obtain ⟨a, r⟩ := i
      have htl : ∀ j ∈ tl, j.2 ≠ StartAttempt.errOther :=
        fun j hj => h j (List.mem_cons_of_mem _ hj)
      have hr : r ≠ StartAttempt.errOther := h (a, r) (List.mem_cons_self _ _)
      simp only [spawnLoop]
      by_cases hc : maxT < a
      · rw [if_pos hc]
        exact ih maxT htl
      · rw [if_neg hc]
        cases r with
        | ok => simp
        | errCeiling => exact ih (a * 95 / 100) htl
        | errOther => exact absurd rfl hr
  · simp only [spawnLoop]
    rw [if_neg (Nat.not_lt.mpr hact)]

/-- C6 witness: ceiling 10, one ceiling-exhaustion failure at 5 active
threads followed by a successful start. -/
theorem direct_delivery_never_dropped_witness :
    (spawnLoop 10 [(5, StartAttempt.errCeiling), (4, StartAttempt.ok)]).1
        ≠ some LoopExit.abandoned ∧
    spawnLoop 10 ((5, StartAttempt.errCeiling) :: [(4, StartAttempt.ok)])
        = spawnLoop (5 * 95 / 100) [(4, StartAttempt.ok)] :=
  direct_delivery_never_dropped 10 5
    [(5, StartAttempt.errCeiling), (4, StartAttempt.ok)] [(4, StartAttempt.ok)]
    (by decide) (by decide)

/-- C7: `restart(timeout)` on a unit with a live process handle performs, in
order, terminate, join (bounded by `timeout`), kill on the old handle, then
spawns a new process (and re-registers when configured); the name,
construction args/kwargs and grace period are unchanged, the process handle
is fresh (distinct from the old one), and the started flag and start
timestamp are freshly set. -/
theorem restart_preserves_config (w : World) (p : RProc) (pid : Nat) (tmo : Option Int)
    (hp : p.process = some pid) (hfresh : pid < w.nextPid) :
    (RProc.restart w p tmo).2.2
      = [PAction.terminate pid, PAction.join pid tmo, PAction.kill pid,
          PAction.spawnProcess w.nextPid]
        ++ (if p.register then [PAction.registerWatchdog] else []) ∧
    (RProc.restart w p tmo).1.name = p.name ∧
    (RProc.restart w p tmo).1.args = p.args ∧
    (RProc.restart w p tmo).1.kwargs = p.kwargs ∧
    (RProc.restart w p tmo).1.grace_period = p.grace_period ∧
    (RProc.restart w p tmo).1.register = p.register ∧
    (RProc.restart w p tmo).1.process = some w.nextPid ∧
    w.nextPid ≠ pid ∧
    (RProc.restart w p tmo).1.started = true ∧
    (RProc.restart w p tmo).1.start_time = some w.now := by
  have hne : w.nextPid ≠ pid := by omega
  simp [RProc.restart, RProc.start, hp, hne]

/-- C7 witness: a concrete unit with process handle 3 restarted in a world
whose next fresh handle is 4. -/
theorem restart_preserves_config_witness :
    (RProc.restart ⟨4, 100⟩ ⟨["w"], [], some "cam", 20, some 3, true, some 50, true⟩
        (some 7)).2.2
      = [PAction.terminate 3, PAction.join 3 (some 7), PAction.kill 3,
          PAction.spawnProcess 4]
        ++ (if (RProc.mk ["w"] [] (some "cam") 20 (some 3) true (some 50) true).register
            then [PAction.registerWatchdog] else []) ∧
    (RProc.restart ⟨4, 100⟩ ⟨["w"], [], some "cam", 20, some 3, true, some 50, true⟩
        (some 7)).1.name = some "cam" ∧
    (RProc.restart ⟨4, 100⟩ ⟨["w"], [], some "cam", 20, some 3, true, some 50, true⟩
        (some 7)).1.args = ["w"] ∧
    (RProc.restart ⟨4, 100⟩ ⟨["w"], [], some "cam", 20, some 3, true, some 50, true⟩
        (some 7)).1.kwargs = [] ∧
    (RProc.restart ⟨4, 100⟩ ⟨["w"], [], some "cam", 20, some 3, true, some 50, true⟩
        (some 7)).1.grace_period = 20 ∧
    (RProc.restart ⟨4, 100⟩ ⟨["w"], [], some "cam", 20, some 3, true, some 50, true⟩
        (some 7)).1.register = true ∧
    (RProc.restart ⟨4, 100⟩ ⟨["w"], [], some "cam", 20, some 3, true, some 50, true⟩
        (some 7)).1.process = some 4 ∧
    (4 : Nat) ≠ 3 ∧
    (RProc.restart ⟨4, 100⟩ ⟨["w"], [], some "cam", 20, some 3, true, some 50, true⟩
        (some 7)).1.started = true ∧
    (RProc.restart ⟨4, 100⟩ ⟨["w"], [], some "cam", 20, some 3, true, some 50, true⟩
        (some 7)).1.start_time = some 100 :=
  restart_preserves_config ⟨4, 100⟩
    ⟨["w"], [], some "cam", 20, some 3, true, some 50, true⟩ 3 (some 7) rfl (by decide)

/-- C8: a subscriber of an unsupported target kind produces exactly the
logged error in place of its delivery; the deliveries of the subscribers
before and after it in the same dispatch are unchanged, and the dispatch
loop goes on to process subsequent messages as usual. -/
theorem invalid_target_isolated (pre post : List (Nat × DataSubscriber)) (uid : Nat)
    (bad : DataSubscriber) (d : PyObj) (st : Registries) (m : Msg) (ms : List Msg)
    (hbad : isValidTarget bad = false) :
    run_callbacks (pre ++ (uid, bad) :: post) d
      = run_callbacks pre d ++ Effect.logError :: run_callbacks post d ∧
    consumeSteps st (m :: ms) = stepEffects st m ++ consumeSteps st ms := by
  have hone : dispatchOne bad d = Effect.logError := by
    obtain ⟨cb, io⟩ := bad
    cases cb <;> cases io <;> simp_all [isValidTarget, dispatchOne]
  constructor
  · simp [run_callbacks, hone]
  · simp [consumeSteps]

/-- C8 witness: a queue subscriber, an invalid subscriber and a callable
subscriber on one topic; the invalid one turns into a logged error between
the two intact deliveries. -/
theorem invalid_target_isolated_witness :
    run_callbacks
        ([(1, ⟨CallbackTarget.queue 2, Option.none⟩)]
          ++ (0, ⟨CallbackTarget.other, Option.none⟩)
            :: [(3, ⟨CallbackTarget.callable 4, Option.none⟩)]) (PyObj.int 5)
      = run_callbacks [(1, ⟨CallbackTarget.queue 2, Option.none⟩)] (PyObj.int 5)
          ++ Effect.logError
            :: run_callbacks [(3, ⟨CallbackTarget.callable 4, Option.none⟩)] (PyObj.int 5) ∧
    consumeSteps ⟨[], [], 0⟩ (Msg.mk "a" PyObj.none :: [])
      = stepEffects ⟨[], [], 0⟩ (Msg.mk "a" PyObj.none) ++ consumeSteps ⟨[], [], 0⟩ [] :=
  invalid_target_isolated [(1, ⟨CallbackTarget.queue 2, Option.none⟩)]
    [(3, ⟨CallbackTarget.callable 4, Option.none⟩)] 0 ⟨CallbackTarget.other, Option.none⟩
    (PyObj.int 5) ⟨[], [], 0⟩ (Msg.mk "a" PyObj.none) [] (by decide)

theorem lookupTopic_setdefaultUpdate (m : SubMap) (t : String) (uid : Nat)
    (s : DataSubscriber) :
    lookupTopic (setdefaultUpdate m t uid s) t ≠ Option.none := by
  induction m with
  | nil => simp [setdefaultUpdate, lookupTopic]
  | cons e tl ih =>
    obtain ⟨k, subs⟩ := e
    by_cases hk : k = t
    · simp [setdefaultUpdate, lookupTopic, hk]
    · simp [setdefaultUpdate, lookupTopic, hk, ih]

/-- C9: `subscribe_data` returns the fresh subscription id and stores the
subscription in exactly one registry, chosen by the presence of `*` in the
pattern: the wildcard map when present (exact map untouched), the exact map
otherwise (wildcard map untouched); the chosen map then has an entry for
the pattern. -/
theorem subscribe_registry_choice (st : Registries) (t : String) (cb : CallbackTarget)
    (io : Option Nat) :
    (subscribe_data st t cb io).1 = st.nextId ∧
    (containsStar t = true →
      (subscribe_data st t cb io).2.subscribers = st.subscribers ∧
      (subscribe_data st t cb io).2.wildcard_subscribers
        = setdefaultUpdate st.wildcard_subscribers t st.nextId ⟨cb, io⟩ ∧
      lookupTopic (subscribe_data st t cb io).2.wildcard_subscribers t ≠ Option.none) ∧
    (containsStar t = false →
      (subscribe_data st t cb io).2.wildcard_subscribers = st.wildcard_subscribers ∧
      (subscribe_data st t cb io).2.subscribers
        = setdefaultUpdate st.subscribers t st.nextId ⟨cb, io⟩ ∧
      lookupTopic (subscribe_data st t cb io).2.subscribers t ≠ Option.none) := by
  refine ⟨?_, fun hc => ?_, fun hc => ?_⟩
  · by_cases hc : containsStar t <;> simp [subscribe_data, hc]
  · simp [subscribe_data, hc, lookupTopic_setdefaultUpdate]
  · simp [subscribe_data, hc, lookupTopic_setdefaultUpdate]

/-- C9 witness: subscribing to `camera/*/event` touches only the wildcard
map; subscribing to `camera/a` touches only the exact map. -/
theorem subscribe_registry_choice_witness :
    (subscribe_data ⟨[], [], 0⟩ "camera/*/event" (CallbackTarget.queue 1) Option.none).1
        = 0 ∧
    (subscribe_data ⟨[], [], 0⟩ "camera/*/event"
        (CallbackTarget.queue 1) Option.none).2.subscribers = [] ∧
    (subscribe_data ⟨[], [], 0⟩ "camera/a"
        (CallbackTarget.queue 1) Option.none).2.wildcard_subscribers = [] :=
  ⟨(subscribe_registry_choice ⟨[], [], 0⟩ "camera/*/event"
      (CallbackTarget.queue 1) Option.none).1,
   ((subscribe_registry_choice ⟨[], [], 0⟩ "camera/*/event"
      (CallbackTarget.queue 1) Option.none).2.1 (by decide)).1,
   ((subscribe_registry_choice ⟨[], [], 0⟩ "camera/a"
      (CallbackTarget.queue 1) Option.none).2.2 (by decide)).1⟩

theorem popAssoc_none_of_not_mem (l : List (Nat × DataSubscriber)) (uid : Nat)
    (h : uid ∉ l.map Prod.fst) : popAssoc l uid = Option.none := by
  induction l with
  | nil => simp [popAssoc]
  | cons e tl ih =>
    obtain ⟨k, v⟩ := e
    simp only [List.map_cons, List.mem_cons, not_or] at h
    simp [popAssoc, Ne.symm h.1, ih h.2]

theorem popAssoc_not_mem (l l' : List (Nat × DataSubscriber)) (uid : Nat)
    (hnd : (l.map Prod.fst).Nodup) (h : popAssoc l uid = some l') :
    uid ∉ l'.map Prod.fst := by
  induction l generalizing l' with
  | nil => simp [popAssoc] at h
  | cons e tl ih =>
    obtain ⟨k, v⟩ := e
    simp only [List.map_cons, List.nodup_cons] at hnd
    by_cases hk : k = uid
    · simp only [popAssoc, if_pos hk] at h
      cases h
      subst hk
      exact hnd.1
    · simp only [popAssoc, if_neg hk] at h
      cases hp : popAssoc tl uid with
      | none => rw [hp] at h; simp at h
      | some r =>
        rw [hp] at h
        have h2 : (k, v) :: r = l' := by simpa using h
        subst h2
        simp only [List.map_cons, List.mem_cons, not_or]
        exact ⟨fun he => hk he.symm, ih r hnd.2 hp⟩

theorem lookupTopic_mem (m : SubMap) (t : String) (subs : List (Nat × DataSubscriber))
    (h : lookupTopic m t = some subs) : (t, subs) ∈ m := by
  induction m with
  | nil => simp [lookupTopic] at h
  | cons e tl ih =>
    obtain ⟨k, v⟩ := e
    by_cases hk : k = t
    · simp only [lookupTopic, if_pos hk] at h
      cases h
      subst hk
      exact List.mem_cons_self _ _
    · simp only [lookupTopic, if_neg hk] at h
      exact List.mem_cons_of_mem _ (ih h)

theorem lookupTopic_replaceTopic (m : SubMap) (t : String)
    (subs v : List (Nat × DataSubscriber)) (h : lookupTopic m t = some subs) :
    lookupTopic (replaceTopic m t v) t = some v := by
  induction m with
  | nil => simp [lookupTopic] at h
  | cons e tl ih =>
    obtain ⟨k, w⟩ := e
    by_cases hk : k = t
    · simp [replaceTopic, lookupTopic, hk]
    · simp only [lookupTopic, if_neg hk] at h
      simp only [replaceTopic, if_neg hk, lookupTopic]
      exact ih h

/-- C5 counterexample: unsubscribing an id that was never issued raises
`KeyError` instead of being a no-op; and after a successful unsubscribe, a
second identical call raises `KeyError` rather than leaving the registries
unchanged — `unsubscribe_data` is not idempotent. -/
theorem unsubscribe_not_idempotent_cx :
    unsubscribe_data ⟨[], [], 0⟩ "a" 0 = Except.error "KeyError" ∧
    unsubscribe_data ⟨[("a", [(0, ⟨CallbackTarget.queue 0, Option.none⟩)])], [], 1⟩ "a" 0
      = Except.ok ⟨[("a", [])], [], 1⟩ ∧
    unsubscribe_data ⟨[("a", [])], [], 1⟩ "a" 0 = Except.error "KeyError" :=
  ⟨rfl, rfl, rfl⟩

/-- C5 (amended): `unsubscribe_data` removes the subscription when the
topic entry and the id are present, and raises `KeyError` otherwise; in
particular, after a successful unsubscribe the same call raises `KeyError`
the second time (removal is real, but the operation is not idempotent).
The registries' inner dicts have unique keys, as Python dicts do. -/
theorem unsubscribe_removes (st st' : Registries) (t : String) (uid : Nat)
    (hnds : ∀ e ∈ st.subscribers, (e.2.map Prod.fst).Nodup)
    (hndw : ∀ e ∈ st.wildcard_subscribers, (e.2.map Prod.fst).Nodup)
    (h : unsubscribe_data st t uid = Except.ok st') :
    unsubscribe_data st' t uid = Except.error "KeyError" := by
  simp only [unsubscribe_data] at h ⊢
  by_cases hc : containsStar t
  · rw [if_pos hc] at h ⊢
    split at h
    · exact absurd h (by simp)
    · rename_i subs hl
      split at h
      · exact absurd h (by simp)
      · rename_i subs' hp
        injection h with h'
        have hw : st'.wildcard_subscribers
            = replaceTopic st.wildcard_subscribers t subs' := by
          rw [← h']
        have hnd := hndw _ (lookupTopic_mem _ _ _ hl)
        rw [hw, lookupTopic_replaceTopic _ _ subs _ hl]
        simp [popAssoc_none_of_not_mem _ _ (popAssoc_not_mem _ _ _ hnd hp)]
  · rw [if_neg hc] at h ⊢
    split at h
    · exact absurd h (by simp)
    · rename_i subs hl
      split at h
      · exact absurd h (by simp)
      · rename_i subs' hp
        injection h with h'
        have hw : st'.subscribers = replaceTopic st.subscribers t subs' := by
          rw [← h']
        have hnd := hnds _ (lookupTopic_mem _ _ _ hl)
        rw [hw, lookupTopic_replaceTopic _ _ subs _ hl]
        simp [popAssoc_none_of_not_mem _ _ (popAssoc_not_mem _ _ _ hnd hp)]

/-- C5 witness: after successfully unsubscribing the only subscriber of
topic `a`, the identical second call raises `KeyError`. -/
theorem unsubscribe_removes_witness :
    unsubscribe_data ⟨[("a", [])], [], 1⟩ "a" 0 = Except.error "KeyError" :=
  unsubscribe_removes ⟨[("a", [(0, ⟨CallbackTarget.queue 0, Option.none⟩)])], [], 1⟩
    ⟨[("a", [])], [], 1⟩ "a" 0 (by decide) (by decide) rfl

end Viseron
